import Mathlib

/-!
# Verification of the notification dispatch core

Shallow embedding, in Lean 4, of the notification composition-and-fan-out
engine of the `backend` repository:

* `src/notifications/channels.py` — the fixed channel enumeration;
* `src/services/notification_service.py` — channel normalization,
  per-recipient channel filtering, template rendering, `send_to_user`,
  `send_to_project_participants`, dispatch to channel tasks;
* `src/services/notification_tasks.py` — the `CHANNEL_TASKS` table;
* `src/repository/notification_repository.py` — `mark_read`,
  `mark_all_read`, `update_status` over an in-memory store.

Python exceptions are modelled with an `Except` monad, `datetime.now` as an
explicit `now : Nat` parameter, the database session as an explicit list of
notification rows, and Celery `task.delay(notification_id)` calls as values
`(task name, notification id)` collected in a list.
-/

/-- Python `NotificationChannel` (`src/notifications/channels.py`):
`EMAIL = "email"`, `TELEGRAM = "telegram"`, `IN_APP = "in-app"`. -/
inductive NotificationChannel
  | email
  | telegram
  | inApp
deriving DecidableEq, Repr

/-- The `.value` of a channel enum member. -/
def NotificationChannel.value : NotificationChannel → String
  | .email => "email"
  | .telegram => "telegram"
  | .inApp => "in-app"

/-- `{channel.value for channel in NotificationChannel}` — the fixed set of
valid channel strings. -/
def channel_values : List String := ["email", "telegram", "in-app"]

/-- The per-user channel toggles of the `NotificationSettings` model.
`src/model/models.py` is not present under `src/`; the three boolean fields
and their all-enabled defaults follow the spec (§3, NotificationSettings)
and the uses in `notification_service.py` / `notification_tasks.py`. -/
structure NotificationSettings where
  in_app_enabled : Bool := true
  telegram_enabled : Bool := true
  email_enabled : Bool := true
deriving DecidableEq, Repr

/-- Structured content of the `ValidationError` messages raised by the
service; the Python message string is a pure rendering of these data
(see `validationMessage`). -/
inductive VKind
  | unknownTemplate (key : String)
  | missingFields (templateKey : String) (missing : List String)
  | unknownChannels (unknown : List String)
deriving DecidableEq, Repr

/-- The exceptions that can escape the embedded code: `ValidationError` and
`NotFoundError` from `src/core/exceptions.py` (module not under `src/`;
they are plain message-carrying exception classes, as used by the service),
plus Python's built-in `KeyError` raised by `str.format` for a placeholder
absent from the keyword arguments. -/
inductive PyError
  | validationError (kind : VKind)
  | notFoundError (msg : String)
  | keyError (key : String)
deriving DecidableEq, Repr

/-- The f-string message carried by each `ValidationError` in
`notification_service.py`. -/
def validationMessage : VKind → String
  | .unknownTemplate key => "Unknown template key: " ++ key
  | .missingFields key missing =>
      "Missing payload fields for template '" ++ key ++ "': " ++ String.intercalate ", " missing
  | .unknownChannels unknown =>
      "Unknown notification channels: " ++ String.intercalate ", " unknown

/-- Python's `sorted(set(l))` for strings: deduplicate, then sort. -/
def pySortedSet (l : List String) : List String :=
  l.eraseDups.insertionSort (fun a b => a ≤ b)

namespace NotificationService

/-- `NotificationService._normalize_channels` (notification_service.py:173-185).
A falsy input (`None` or `[]`) yields the default `["in-app"]`; otherwise the
entries (already strings here; the source also accepts enum members and takes
`str(channel)`) are validated against the fixed channel set, raising
`ValidationError` listing the unknown entries (`sorted(set(normalized) - allowed)`),
and the normalized list is returned as is. -/
def _normalize_channels : Option (List String) → Except PyError (List String)
  | none => Except.ok [NotificationChannel.inApp.value]
  | some channels =>
    if channels.isEmpty then Except.ok [NotificationChannel.inApp.value]
    else
      let normalized := channels
      let unknown := pySortedSet (normalized.filter (fun c => decide (c ∉ channel_values)))
      if unknown.isEmpty then Except.ok normalized
      else Except.error (.validationError (.unknownChannels unknown))

/-- The dict `channel_settings` built in `_filter_allowed_channels` and
`_dispatch_notification`, accessed with `.get(channel, False)`. -/
def channel_setting (settings : NotificationSettings) (channel : String) : Bool :=
  if channel = "in-app" then settings.in_app_enabled
  else if channel = "telegram" then settings.telegram_enabled
  else if channel = "email" then settings.email_enabled
  else false

/-- `NotificationService._filter_allowed_channels` (notification_service.py:187-195):
`[channel for channel in channels if channel_settings.get(channel, False)]`. -/
def _filter_allowed_channels (channels : List String) (settings : NotificationSettings) :
    List String :=
  channels.filter (fun channel => channel_setting settings channel)

end NotificationService

/-- `CHANNEL_TASKS` (notification_tasks.py:133-136), mapping a channel value to
the Celery task registered for it. The dict has entries for `IN_APP` and
`TELEGRAM` only; tasks are represented by their registered task names. -/
def CHANNEL_TASKS : List (String × String) :=
  [(NotificationChannel.inApp.value, "send_notification_task"),
   (NotificationChannel.telegram.value, "send_telegram_notification")]

namespace NotificationService

/-- `NotificationService._dispatch_notification` (notification_service.py:197-214).
The source re-fetches the recipient's settings with `get_or_create(recipient_id)`;
here the recipient's settings row is passed directly. It iterates over
`set(channels)` (modelled as `eraseDups`, keeping first occurrences), skips
channels disabled in the settings, looks the channel up in `CHANNEL_TASKS`, and
calls `task.delay(notification_id)` when an entry exists. The returned list
holds one `(task name, notification id)` pair per `delay` call. -/
def _dispatch_notification (settings : NotificationSettings) (notification_id : String)
    (channels : List String) : List (String × String) :=
  channels.eraseDups.filterMap (fun channel =>
    if channel_setting settings channel then
      (CHANNEL_TASKS.lookup channel).map (fun task => (task, notification_id))
    else none)

end NotificationService

/-- Settings with every channel toggle enabled. -/
def all_enabled_settings : NotificationSettings :=
  { in_app_enabled := true, telegram_enabled := true, email_enabled := true }

/-- C1: the claim says every channel in a notification's allowed list gets
exactly one delivery task — in particular an allowed `email` channel gets an
email delivery task. The code cannot do this: `CHANNEL_TASKS` has no `"email"`
entry, so dispatching a notification whose allowed channels are `["email"]`
to a recipient with email enabled enqueues no task at all, even though the
fully implemented `send_email_notification` task exists in the same module.
In-app and telegram each get exactly one task, as claimed. -/
theorem C1_email_channel_gets_no_task :
    NotificationService._dispatch_notification all_enabled_settings "n1" ["email"] = [] ∧
    CHANNEL_TASKS.lookup "email" = none ∧
    NotificationService._dispatch_notification all_enabled_settings "n1"
        ["in-app", "telegram", "email"]
      = [("send_notification_task", "n1"), ("send_telegram_notification", "n1")] :=
  ⟨rfl, rfl, rfl⟩

/-- C8: normalizing an absent (`None`) or empty channel list returns exactly
the single default channel `in-app`. -/
theorem C8_normalize_default_in_app :
    NotificationService._normalize_channels none = Except.ok ["in-app"] ∧
    NotificationService._normalize_channels (some []) = Except.ok ["in-app"] :=
  ⟨rfl, rfl⟩

/-- C9 counterexample: the claim says `normalize` returns an ordered set, each
channel at most once even when the input repeats one. On input
`["email", "email"]` (all entries valid channels) the code returns the list
unchanged, with `"email"` occurring twice. -/
theorem C9_counterexample_duplicates_kept :
    NotificationService._normalize_channels (some ["email", "email"])
      = Except.ok ["email", "email"] ∧
    (["email", "email"] : List String).count "email" = 2 :=
  ⟨rfl, by decide⟩

/-- C9 (amended): for a non-empty request whose entries are all members of the
fixed channel set, `normalize` returns the requested list unchanged — order
and multiplicity preserved, so duplicates are kept, not collapsed. -/
theorem C9_normalize_returns_input_unchanged (channels : List String)
    (hne : channels ≠ [])
    (hall : ∀ c ∈ channels, c ∈ channel_values) :
    NotificationService._normalize_channels (some channels) = Except.ok channels := by
  have hfilter : channels.filter (fun c => decide (c ∉ channel_values)) = [] := by
    rw [List.filter_eq_nil_iff]
    intro c hc
    simpa using hall c hc
  simp only [decide_not] at hfilter
  cases channels with
  | nil => exact absurd rfl hne
  | cons a l =>
    simp [NotificationService._normalize_channels, hfilter, pySortedSet]

/-- C9 witness: a concrete duplicated valid request passing through unchanged. -/
theorem C9_witness :
    NotificationService._normalize_channels (some ["email", "telegram", "email"])
      = Except.ok ["email", "telegram", "email"] :=
  C9_normalize_returns_input_unchanged ["email", "telegram", "email"]
    (by decide) (by decide)

/-- One segment of a Python format string: literal text or a named
placeholder `\x7bname\x7d`. -/
inductive Fmt
  | lit (s : String)
  | hole (name : String)
deriving DecidableEq, Repr

/-- Python's `fmt.format(**payload)` for a format string with named
placeholders: substitutes placeholders left to right from the payload keys
and raises the built-in `KeyError` at the first placeholder whose name is
not a payload key. -/
def pyFormat (payload : List (String × String)) : List Fmt → Except PyError String
  | [] => Except.ok ""
  | Fmt.lit s :: rest => (pyFormat payload rest).map (fun t => s ++ t)
  | Fmt.hole name :: rest =>
    match payload.lookup name with
    | some v => (pyFormat payload rest).map (fun t => v ++ t)
    | none => Except.error (PyError.keyError name)

/-- One registry entry: the dict
`\x7b"title": ..., "body": ..., "required": [...]\x7d` of
`list_notification_templates`; `template.get("required", [])` always finds
the key in this model. -/
structure Template where
  title : List Fmt
  body : List Fmt
  required : List String
deriving DecidableEq, Repr

/-- Modelled from the spec: `list_notification_templates` is defined in
`src/notifications/templates.py`, which is not present under `src/`. The
entries follow the spec's template data — the required-fields mapping of §6
(get templates: `project_invitation` → `["project_name"]`,
`project_announcement` → `["project_name", "message"]`, `system_alert` →
`["message"]`) and the rendered titles/bodies of the §8 scenarios and the
API examples (title "Системное уведомление" with body equal to the payload
message for `system_alert`; title "Объявление проекта" with body
"Новое объявление в проекте «…»: …" for `project_announcement`; title
"Приглашение в проект" with body "Вас пригласили в проект «…»." for
`project_invitation`). Every placeholder of every modelled template is a
declared required field. -/
def list_notification_templates : List (String × Template) :=
  [("project_invitation",
    { title := [Fmt.lit "Приглашение в проект"],
      body := [Fmt.lit "Вас пригласили в проект «", Fmt.hole "project_name", Fmt.lit "»."],
      required := ["project_name"] }),
   ("project_announcement",
    { title := [Fmt.lit "Объявление проекта"],
      body := [Fmt.lit "Новое объявление в проекте «", Fmt.hole "project_name",
               Fmt.lit "»: ", Fmt.hole "message"],
      required := ["project_name", "message"] }),
   ("system_alert",
    { title := [Fmt.lit "Системное уведомление"],
      body := [Fmt.hole "message"],
      required := ["message"] })]

namespace NotificationService

/-- `NotificationService._templates` (notification_service.py:33-36): returns
`list_notification_templates()`. -/
def _templates : List (String × Template) := list_notification_templates

/-- `NotificationService._render_template` (notification_service.py:38-53),
with the registry `cls._templates()` made an explicit argument. Unknown key
raises `ValidationError`; `missing = [field for field in required_fields if
field not in payload]`, and a non-empty `missing` raises `ValidationError`
listing all of them; then `title.format(**payload)` and
`body.format(**payload)` run, each able to raise an uncaught `KeyError`. -/
def render_template_with (templates : List (String × Template)) (template_key : String)
    (payload : List (String × String)) : Except PyError (String × String) :=
  match templates.lookup template_key with
  | none => Except.error (PyError.validationError (VKind.unknownTemplate template_key))
  | some template =>
    let missing := template.required.filter (fun field => (payload.lookup field).isNone)
    if missing ≠ [] then
      Except.error (PyError.validationError (VKind.missingFields template_key missing))
    else
      match pyFormat payload template.title with
      | Except.error e => Except.error e
      | Except.ok title =>
        match pyFormat payload template.body with
        | Except.error e => Except.error e
        | Except.ok body => Except.ok (title, body)

/-- `NotificationService._render_template` applied to the fixed registry. -/
def _render_template (template_key : String) (payload : List (String × String)) :
    Except PyError (String × String) :=
  render_template_with _templates template_key payload

end NotificationService

/-- `pyFormat` succeeds exactly when every placeholder name is a payload key. -/
theorem pyFormat_ok_iff (payload : List (String × String)) (fmt : List Fmt) :
    (∃ s, pyFormat payload fmt = Except.ok s) ↔
      ∀ p, Fmt.hole p ∈ fmt → (payload.lookup p).isSome := by
  induction fmt with
  | nil => simp [pyFormat]
  | cons f rest ih =>
    cases f with
    | lit s =>
      simp only [pyFormat]
      constructor
      · rintro ⟨t, ht⟩ p hp
        rcases hr : pyFormat payload rest with e | u
        · rw [hr] at ht; simp [Except.map] at ht
        · exact (ih.mp ⟨u, hr⟩) p (by simpa using hp)
      · intro h
        rcases (ih.mpr (fun p hp => h p (List.mem_cons_of_mem _ hp))) with ⟨u, hu⟩
        exact ⟨s ++ u, by rw [hu]; rfl⟩
    | hole name =>
      simp only [pyFormat]
      constructor
      · rintro ⟨t, ht⟩ p hp
        rcases hl : payload.lookup name with _ | v
        · rw [hl] at ht; simp at ht
        · rw [hl] at ht
          rcases List.mem_cons.mp hp with heq | hmem
          · cases heq; simp [hl]
          · rcases hr : pyFormat payload rest with e | u
            · rw [hr] at ht; simp [Except.map] at ht
            · exact (ih.mp ⟨u, hr⟩) p hmem
      · intro h
        have hname : (payload.lookup name).isSome := h name (List.mem_cons_self _ _)
        rcases hl : payload.lookup name with _ | v
        · rw [hl] at hname; simp at hname
        · rcases (ih.mpr (fun p hp => h p (List.mem_cons_of_mem _ hp))) with ⟨u, hu⟩
          exact ⟨v ++ u, by rw [hu]; rfl⟩

/-- When `pyFormat` fails, the failure is a `KeyError` for a placeholder name
absent from the payload. -/
theorem pyFormat_error_keyError (payload : List (String × String)) (fmt : List Fmt)
    (e : PyError) (h : pyFormat payload fmt = Except.error e) :
    ∃ k, e = PyError.keyError k ∧ payload.lookup k = none := by
  induction fmt with
  | nil => simp [pyFormat] at h
  | cons f rest ih =>
    cases f with
    | lit s =>
      simp only [pyFormat] at h
      rcases hr : pyFormat payload rest with e' | u
      · rw [hr] at h
        simp [Except.map] at h
        subst h
        exact ih hr
      · rw [hr] at h; simp [Except.map] at h
    | hole name =>
      simp only [pyFormat] at h
      rcases hl : payload.lookup name with _ | v
      · rw [hl] at h
        simp at h
        exact ⟨name, h.symm, hl⟩
      · rw [hl] at h
        rcases hr : pyFormat payload rest with e' | u
        · rw [hr] at h
          simp [Except.map] at h
          subst h
          exact ih hr
        · rw [hr] at h; simp [Except.map] at h

/-- C4: for every registry — hence for the actual one — an unknown
`template_key` makes `_render_template` fail with `ValidationError`, and a
known key whose payload lacks one or more required fields makes it fail with
a `MissingFields` `ValidationError` whose list is the filter of all absent
required fields — and that list contains every absent required field, not
just a subset. -/
theorem C4_render_unknown_and_missing (templates : List (String × Template))
    (template_key : String) (payload : List (String × String)) :
    (templates.lookup template_key = none →
      NotificationService.render_template_with templates template_key payload
        = Except.error (PyError.validationError (VKind.unknownTemplate template_key))) ∧
    (∀ template, templates.lookup template_key = some template →
      ∀ f ∈ template.required, payload.lookup f = none →
        NotificationService.render_template_with templates template_key payload
          = Except.error (PyError.validationError (VKind.missingFields template_key
              (template.required.filter (fun g => (payload.lookup g).isNone)))) ∧
        ∀ g ∈ template.required, payload.lookup g = none →
          g ∈ template.required.filter (fun g => (payload.lookup g).isNone)) := by
  constructor
  · intro hnone
    simp [NotificationService.render_template_with, hnone]
  · intro template hsome f hf hfnone
    have hfmem : f ∈ template.required.filter (fun g => (payload.lookup g).isNone) :=
      List.mem_filter.mpr ⟨hf, by simp [hfnone]⟩
    have hne : template.required.filter (fun g => (payload.lookup g).isNone) ≠ [] :=
      List.ne_nil_of_mem hfmem
    refine ⟨?_, ?_⟩
    · simp only [NotificationService.render_template_with, hsome]
      simp [hne]
    · intro g hg hgnone
      exact List.mem_filter.mpr ⟨hg, by simp [hgnone]⟩

/-- C4 witness: an unknown key, and a known key with the required field
"message" absent — the error lists it. -/
theorem C4_witness :
    NotificationService.render_template_with NotificationService._templates "nonexistent" []
      = Except.error (PyError.validationError (VKind.unknownTemplate "nonexistent")) ∧
    NotificationService.render_template_with NotificationService._templates
        "project_announcement" [("project_name", "Alpha")]
      = Except.error (PyError.validationError
          (VKind.missingFields "project_announcement" ["message"])) :=
  ⟨(C4_render_unknown_and_missing NotificationService._templates "nonexistent" []).1 rfl,
   ((C4_render_unknown_and_missing NotificationService._templates "project_announcement"
      [("project_name", "Alpha")]).2
     { title := [Fmt.lit "Объявление проекта"],
       body := [Fmt.lit "Новое объявление в проекте «", Fmt.hole "project_name",
                Fmt.lit "»: ", Fmt.hole "message"],
       required := ["project_name", "message"] }
     rfl "message" (by decide) rfl).1⟩

/-- C3 counterexample: the claim says a placeholder that is neither declared
required nor a payload key makes render fail with the `MissingFields`
`ValidationError`. Running the render code on a registry holding a template
whose title has the undeclared placeholder "extra", with an empty payload,
fails with the uncaught Python `KeyError` instead — not a `ValidationError`
of any kind. -/
theorem C3_counterexample_keyerror :
    NotificationService.render_template_with
        [("greeting", { title := [Fmt.hole "extra"], body := [], required := [] })]
        "greeting" []
      = Except.error (PyError.keyError "extra") := rfl

/-- C3 (amended): when every declared required field is present in the payload
but the title or body format string has a placeholder that is not a payload
key, render fails with a `KeyError` for such a placeholder — an uncaught
formatting error, not the `MissingFields` `ValidationError`. (In the registry
modelled from the spec every placeholder is declared required, so this case
never arises there.) -/
theorem C3_undeclared_placeholder_keyerror (templates : List (String × Template))
    (template_key : String) (payload : List (String × String)) (template : Template)
    (hlook : templates.lookup template_key = some template)
    (hreq : ∀ f ∈ template.required, (payload.lookup f).isSome)
    (hmiss : ∃ p, (Fmt.hole p ∈ template.title ∨ Fmt.hole p ∈ template.body) ∧
      payload.lookup p = none) :
    ∃ k, NotificationService.render_template_with templates template_key payload
        = Except.error (PyError.keyError k) ∧ payload.lookup k = none := by
  have hm : template.required.filter (fun field => (payload.lookup field).isNone) = [] := by
    rw [List.filter_eq_nil_iff]
    intro f hf
    have h := hreq f hf
    rcases hc : payload.lookup f with _ | v
    · rw [hc] at h; simp at h
    · simp
  rcases hmiss with ⟨p, hp, hpnone⟩
  rcases ht : pyFormat payload template.title with e | title
  · rcases pyFormat_error_keyError payload template.title e ht with ⟨k, hk, hknone⟩
    refine ⟨k, ?_, hknone⟩
    simp only [NotificationService.render_template_with, hlook, hm, ht, hk]
    simp
  · have htitle : ∀ q, Fmt.hole q ∈ template.title → (payload.lookup q).isSome :=
      (pyFormat_ok_iff payload template.title).mp ⟨title, ht⟩
    have hpbody : Fmt.hole p ∈ template.body := by
      rcases hp with hpt | hpb
      · exact absurd (htitle p hpt) (by simp [hpnone])
      · exact hpb
    rcases hb : pyFormat payload template.body with e | body
    · rcases pyFormat_error_keyError payload template.body e hb with ⟨k, hk, hknone⟩
      refine ⟨k, ?_, hknone⟩
      simp only [NotificationService.render_template_with, hlook, hm, ht, hb, hk]
      simp
    · have hbody := (pyFormat_ok_iff payload template.body).mp ⟨body, hb⟩
      exact absurd (hbody p hpbody) (by simp [hpnone])

/-- C3 witness: the amended theorem at the counterexample's registry — the
failure is a `KeyError` naming a placeholder absent from the payload. -/
theorem C3_witness :
    ∃ k, NotificationService.render_template_with
        [("greeting", { title := [Fmt.hole "extra"], body := [], required := [] })]
        "greeting" []
      = Except.error (PyError.keyError k) ∧ List.lookup k ([] : List (String × String)) = none :=
  C3_undeclared_placeholder_keyerror
    [("greeting", { title := [Fmt.hole "extra"], body := [], required := [] })]
    "greeting" [] { title := [Fmt.hole "extra"], body := [], required := [] }
    rfl (by simp) ⟨"extra", by simp, rfl⟩

/-- The dict built by `send_to_user` / `send_to_project_participants` and
handed to `NotificationRepository.create` / `create_many`; `id` is the
`str(uuid4())` generated at build time. -/
structure NotificationData where
  id : String
  recipient_id : Int
  sender_id : Option Int
  project_id : Option Int
  type : String
  status : String
  title : String
  body : String
  channels : List String
deriving DecidableEq, Repr

/-- The slice of the `Project` model used by the service (`models.py` is not
under `src/`; the service and its unit tests read only `author_id`). -/
structure Project where
  author_id : Int
deriving DecidableEq, Repr

namespace NotificationService

/-- `NotificationService.send_to_user` (notification_service.py:62-98).
The environment is made explicit: `settings` is the row
`get_or_create(recipient_id)` returns (also used by the dispatch re-check),
`new_id` the generated `str(uuid4())`, and `templates` the registry. The
result carries the created notification data, the returned status code, and
the list of `(task name, notification id)` delivery enqueues. -/
def send_to_user (templates : List (String × Template)) (settings : NotificationSettings)
    (new_id : String) (recipient_id : Int) (sender_id : Option Int) (template_key : String)
    (payload : List (String × String)) (project_id : Option Int := none)
    (channels : Option (List String) := none) :
    Except PyError (NotificationData × Nat × List (String × String)) :=
  match _normalize_channels channels with
  | Except.error e => Except.error e
  | Except.ok normalized_channels =>
    let allowed_channels := _filter_allowed_channels normalized_channels settings
    match render_template_with templates template_key payload with
    | Except.error e => Except.error e
    | Except.ok (title, body) =>
      let data : NotificationData :=
        { id := new_id, recipient_id := recipient_id, sender_id := sender_id,
          project_id := project_id, type := template_key, status := "pending",
          title := title, body := body, channels := allowed_channels }
      let tasks := _dispatch_notification settings new_id allowed_channels
      let status_code : Nat :=
        if allowed_channels.length = normalized_channels.length then 200 else 202
      Except.ok (data, status_code, tasks)

end NotificationService

/-- A filter keeping every element of a list is the identity on it. -/
theorem filter_length_eq_iff_filter_eq {α : Type} (p : α → Bool) (l : List α) :
    (l.filter p).length = l.length ↔ l.filter p = l := by
  constructor
  · intro h
    induction l with
    | nil => rfl
    | cons a t ih =>
      by_cases hp : p a
      · simp only [List.filter_cons, if_pos hp, List.length_cons] at h ⊢
        rw [ih (by omega)]
      · have hle := List.length_filter_le p t
        simp only [List.filter_cons, if_neg hp, List.length_cons] at h
        omega
  · intro h
    rw [h]

/-- C2: whenever `send_to_user` returns (a success, not an exception), the
status code is 200 exactly when the created notification's allowed channel
list equals the normalized requested channel list, and 202 otherwise; no
other code is possible. -/
theorem C2_full_iff_all_channels_allowed (templates : List (String × Template))
    (settings : NotificationSettings) (new_id : String) (recipient_id : Int)
    (sender_id : Option Int) (template_key : String) (payload : List (String × String))
    (project_id : Option Int) (channels : Option (List String))
    (data : NotificationData) (code : Nat) (tasks : List (String × String))
    (h : NotificationService.send_to_user templates settings new_id recipient_id sender_id
          template_key payload project_id channels = Except.ok (data, code, tasks)) :
    ∃ normalized, NotificationService._normalize_channels channels = Except.ok normalized ∧
      data.channels = NotificationService._filter_allowed_channels normalized settings ∧
      (code = 200 ↔ data.channels = normalized) ∧
      (code = 200 ∨ code = 202) := by
  rcases hn : NotificationService._normalize_channels channels with e | normalized
  · rw [NotificationService.send_to_user, hn] at h
    cases h
  · rcases hr : NotificationService.render_template_with templates template_key payload
      with e | tb
    · rw [NotificationService.send_to_user, hn, hr] at h
      cases h
    · obtain ⟨title, body⟩ := tb
      rw [NotificationService.send_to_user, hn, hr] at h
      simp only [Except.ok.injEq, Prod.mk.injEq] at h
      obtain ⟨hdata, hcode, -⟩ := h
      refine ⟨normalized, rfl, ?_, ?_, ?_⟩
      · rw [← hdata]
      · rw [← hdata]
        by_cases hlen : (NotificationService._filter_allowed_channels normalized
            settings).length = normalized.length
        · rw [← hcode]
          simp only [if_pos hlen]
          have heq := (filter_length_eq_iff_filter_eq _ _).mp hlen
          simp [NotificationService._filter_allowed_channels] at heq ⊢
          exact heq
        · rw [← hcode]
          simp only [if_neg hlen]
          constructor
          · omega
          · intro heq
            exact absurd ((filter_length_eq_iff_filter_eq _ _).mpr heq) hlen
      · rw [← hcode]
        by_cases hlen : (NotificationService._filter_allowed_channels normalized
            settings).length = normalized.length
        · exact Or.inl (by simp [hlen])
        · exact Or.inr (by simp [hlen])

/-- C2 witness: requested channels default to `["in-app"]`, the recipient has
in-app disabled, so the allowed list is empty and the code is 202. -/
theorem C2_witness :
    ∃ normalized,
      NotificationService._normalize_channels none = Except.ok normalized ∧
      ({ id := "n1", recipient_id := 1, sender_id := some 2, project_id := none,
         type := "system_alert", status := "pending", title := "Системное уведомление",
         body := "hi", channels := [] } : NotificationData).channels
        = NotificationService._filter_allowed_channels normalized
            { in_app_enabled := false, telegram_enabled := true, email_enabled := true } ∧
      ((202 : Nat) = 200 ↔
        ({ id := "n1", recipient_id := 1, sender_id := some 2, project_id := none,
           type := "system_alert", status := "pending", title := "Системное уведомление",
           body := "hi", channels := [] } : NotificationData).channels = normalized) ∧
      ((202 : Nat) = 200 ∨ (202 : Nat) = 202) :=
  C2_full_iff_all_channels_allowed NotificationService._templates
    { in_app_enabled := false, telegram_enabled := true, email_enabled := true }
    "n1" 1 (some 2) "system_alert" [("message", "hi")] none none
    { id := "n1", recipient_id := 1, sender_id := some 2, project_id := none,
      type := "system_alert", status := "pending", title := "Системное уведомление",
      body := "hi", channels := [] }
    202 [] rfl

/-- Adding one element to a Python set: a no-op when already present. The
set's iteration order is unspecified in Python; insertion order is used as a
deterministic model (the claims proved over it are order-independent). -/
def setAdd (s : List Int) (x : Int) : List Int :=
  if x ∈ s then s else s ++ [x]

/-- Python's `set(l)` for a list of ids, as insertion-ordered deduplication. -/
def pySetOf (l : List Int) : List Int := l.foldl setAdd []

theorem mem_setAdd (s : List Int) (y x : Int) : x ∈ setAdd s y ↔ x ∈ s ∨ x = y := by
  by_cases hy : y ∈ s
  · simp only [setAdd, if_pos hy]
    constructor
    · exact Or.inl
    · rintro (h | rfl)
      · exact h
      · exact hy
  · simp [setAdd, if_neg hy]

theorem nodup_setAdd (s : List Int) (y : Int) (h : s.Nodup) : (setAdd s y).Nodup := by
  by_cases hy : y ∈ s
  · simpa only [setAdd, if_pos hy] using h
  · simp only [setAdd, if_neg hy]
    simp [List.nodup_append, h, hy]

theorem mem_pySetOf_aux (l acc : List Int) (x : Int) :
    x ∈ l.foldl setAdd acc ↔ x ∈ acc ∨ x ∈ l := by
  induction l generalizing acc with
  | nil => simp
  | cons a t ih =>
    rw [List.foldl_cons, ih, mem_setAdd]
    constructor
    · rintro ((h | h) | h)
      · exact Or.inl h
      · exact Or.inr (by simp [h])
      · exact Or.inr (List.mem_cons_of_mem _ h)
    · rintro (h | h)
      · exact Or.inl (Or.inl h)
      · rcases List.mem_cons.mp h with rfl | h
        · exact Or.inl (Or.inr rfl)
        · exact Or.inr h

theorem mem_pySetOf (l : List Int) (x : Int) : x ∈ pySetOf l ↔ x ∈ l := by
  rw [pySetOf, mem_pySetOf_aux]
  simp

theorem nodup_pySetOf_aux (l acc : List Int) (h : acc.Nodup) :
    (l.foldl setAdd acc).Nodup := by
  induction l generalizing acc with
  | nil => simpa
  | cons a t ih => exact ih _ (nodup_setAdd acc a h)

theorem nodup_pySetOf (l : List Int) : (pySetOf l).Nodup :=
  nodup_pySetOf_aux l [] List.nodup_nil

/-- The recipient set of a project fan-out:
`recipients = set(participant_ids)`, plus `recipients.add(project.author_id)`
when `include_author` is true. -/
def fanout_recipients (participant_ids : List Int) (include_author : Bool)
    (author_id : Int) : List Int :=
  if include_author then setAdd (pySetOf participant_ids) author_id
  else pySetOf participant_ids

namespace NotificationService

/-- `NotificationService.send_to_project_participants`
(notification_service.py:100-155). The environment is explicit: `project` is
what `project_repository.get_by_id(project_id)` returns, `participant_ids`
what the participation repository returns, `settings_of` the per-recipient
`get_or_create` rows, and `gen_id` the `str(uuid4())` generator indexed by
position in the recipient iteration. The per-notification dispatch loop
after `create_many` is the one modelled by `_dispatch_notification`. -/
def send_to_project_participants (templates : List (String × Template))
    (project : Option Project) (participant_ids : List Int)
    (settings_of : Int → NotificationSettings) (gen_id : Nat → String)
    (project_id : Int) (sender_id : Option Int) (template_key : String)
    (payload : List (String × String)) (include_author : Bool := true)
    (channels : Option (List String) := none) :
    Except PyError (List NotificationData × Nat) :=
  match _normalize_channels channels with
  | Except.error e => Except.error e
  | Except.ok normalized_channels =>
    match project with
    | none => Except.error (PyError.notFoundError "Project not found")
    | some project =>
      let recipients := fanout_recipients participant_ids include_author project.author_id
      if recipients = [] then Except.ok ([], 200)
      else
        match render_template_with templates template_key payload with
        | Except.error e => Except.error e
        | Except.ok (title, body) =>
          let notifications_data := recipients.enum.map (fun p =>
            ({ id := gen_id p.1, recipient_id := p.2, sender_id := sender_id,
               project_id := some project_id, type := template_key, status := "pending",
               title := title, body := body,
               channels := _filter_allowed_channels normalized_channels (settings_of p.2) }
              : NotificationData))
          let channels_disabled := recipients.any (fun rid =>
            (_filter_allowed_channels normalized_channels (settings_of rid)).length
              < normalized_channels.length)
          let status_code : Nat := if channels_disabled then 202 else 200
          Except.ok (notifications_data, status_code)

end NotificationService

theorem mem_fanout_recipients (participant_ids : List Int) (include_author : Bool)
    (author_id uid : Int) :
    uid ∈ fanout_recipients participant_ids include_author author_id ↔
      uid ∈ participant_ids ∨ (include_author = true ∧ uid = author_id) := by
  cases include_author with
  | false => simp [fanout_recipients, mem_pySetOf]
  | true => simp [fanout_recipients, mem_setAdd, mem_pySetOf]

theorem nodup_fanout_recipients (participant_ids : List Int) (include_author : Bool)
    (author_id : Int) :
    (fanout_recipients participant_ids include_author author_id).Nodup := by
  cases include_author with
  | false => simpa [fanout_recipients] using nodup_pySetOf participant_ids
  | true =>
    simpa [fanout_recipients] using
      nodup_setAdd _ author_id (nodup_pySetOf participant_ids)

/-- C6: the recipients of a project fan-out are the deduplicated set of
participant ids, united with the author id when `include_author` is true:
each member of that set receives exactly one notification — in particular a
user who is both a participant and the author gets one, not two — and
everyone else none. -/
theorem C6_fanout_deduplicates_recipients (templates : List (String × Template))
    (proj : Project) (participant_ids : List Int)
    (settings_of : Int → NotificationSettings) (gen_id : Nat → String)
    (project_id : Int) (sender_id : Option Int) (template_key : String)
    (payload : List (String × String)) (include_author : Bool)
    (channels : Option (List String)) (datas : List NotificationData) (code : Nat)
    (h : NotificationService.send_to_project_participants templates (some proj)
          participant_ids settings_of gen_id project_id sender_id template_key payload
          include_author channels = Except.ok (datas, code)) :
    ∀ uid : Int,
      (datas.map (fun d => d.recipient_id)).count uid
        = if uid ∈ participant_ids ∨ (include_author = true ∧ uid = proj.author_id)
          then 1 else 0 := by
  intro uid
  rcases hn : NotificationService._normalize_channels channels with e | normalized
  · rw [NotificationService.send_to_project_participants, hn] at h
    cases h
  · have hmem := mem_fanout_recipients participant_ids include_author proj.author_id uid
    have hnodup := nodup_fanout_recipients participant_ids include_author proj.author_id
    by_cases hempty : fanout_recipients participant_ids include_author proj.author_id = []
    · simp only [NotificationService.send_to_project_participants, hn, hempty,
        if_pos] at h
      simp only [Except.ok.injEq, Prod.mk.injEq] at h
      obtain ⟨hdatas, -⟩ := h
      subst hdatas
      have hno : ¬ (uid ∈ participant_ids ∨ (include_author = true ∧ uid = proj.author_id)) := by
        rw [← hmem, hempty]
        simp
      simp [hno]
    · rcases hr : NotificationService.render_template_with templates template_key payload
        with e | tb
      · simp only [NotificationService.send_to_project_participants, hn, hr,
          if_neg hempty] at h
        cases h
      · obtain ⟨title, body⟩ := tb
        simp only [NotificationService.send_to_project_participants, hn, hr,
          if_neg hempty] at h
        simp only [Except.ok.injEq, Prod.mk.injEq] at h
        obtain ⟨hdatas, -⟩ := h
        subst hdatas
        have hmap : ((fanout_recipients participant_ids include_author
              proj.author_id).enum.map (fun p =>
            ({ id := gen_id p.1, recipient_id := p.2, sender_id := sender_id,
               project_id := some project_id, type := template_key, status := "pending",
               title := title, body := body,
               channels := NotificationService._filter_allowed_channels normalized
                 (settings_of p.2) } : NotificationData))).map (fun d => d.recipient_id)
            = fanout_recipients participant_ids include_author proj.author_id := by
          rw [List.map_map]
          have hcomp : ((fun d : NotificationData => d.recipient_id) ∘ (fun p : Nat × Int =>
              ({ id := gen_id p.1, recipient_id := p.2, sender_id := sender_id,
                 project_id := some project_id, type := template_key, status := "pending",
                 title := title, body := body,
                 channels := NotificationService._filter_allowed_channels normalized
                   (settings_of p.2) } : NotificationData))) = Prod.snd := rfl
          rw [hcomp, List.enum_map_snd]
        rw [hmap]
        by_cases huid : uid ∈ fanout_recipients participant_ids include_author proj.author_id
        · rw [if_pos (hmem.mp huid)]
          exact List.count_eq_one_of_mem hnodup huid
        · rw [if_neg (fun hcond => huid (hmem.mpr hcond))]
          exact List.count_eq_zero_of_not_mem huid

/-- C6 witness: author 10 is also a listed participant; with
`include_author = true` users 10 and 11 each get exactly one notification. -/
theorem C6_witness :
    (([{ id := "0", recipient_id := 10, sender_id := some 2, project_id := some 42,
         type := "system_alert", status := "pending", title := "Системное уведомление",
         body := "hi", channels := ["in-app"] },
       { id := "1", recipient_id := 11, sender_id := some 2, project_id := some 42,
         type := "system_alert", status := "pending", title := "Системное уведомление",
         body := "hi", channels := ["in-app"] }] : List NotificationData).map
        (fun d => d.recipient_id)).count 10 = 1 :=
  C6_fanout_deduplicates_recipients NotificationService._templates
    { author_id := 10 } [10, 11] (fun _ => all_enabled_settings) (fun n => toString n)
    42 (some 2) "system_alert" [("message", "hi")] true none
    [{ id := "0", recipient_id := 10, sender_id := some 2, project_id := some 42,
       type := "system_alert", status := "pending", title := "Системное уведомление",
       body := "hi", channels := ["in-app"] },
     { id := "1", recipient_id := 11, sender_id := some 2, project_id := some 42,
       type := "system_alert", status := "pending", title := "Системное уведомление",
       body := "hi", channels := ["in-app"] }]
    200 rfl 10

/-- The `Notification` ORM row as read and mutated by
`NotificationRepository` (`models.py` is not under `src/`; the fields are the
ones the repository, service and unit tests use, with timestamps as `Nat`). -/
structure Notification where
  id : String
  recipient_id : Int
  sender_id : Option Int := none
  project_id : Option Int := none
  type : String := ""
  status : String := "pending"
  title : String := ""
  body : String := ""
  channels : List String := []
  created_at : Nat := 0
  sent_at : Option Nat := none
  read_at : Option Nat := none
deriving DecidableEq, Repr

namespace NotificationRepository

/-- `BaseRepository.get_by_id` specialised to notifications: the first row
with the given primary key (keys are unique in the database; a list with
one row per id models a session's identity map). -/
def get_by_id : List Notification → String → Option Notification
  | [], _ => none
  | n :: rest, nid => if n.id = nid then some n else get_by_id rest nid

/-- In-place ORM mutation of the row fetched by id: replace the first row
with that id by its updated value. -/
def updateFirst : List Notification → String → (Notification → Notification) →
    List Notification
  | [], _, _ => []
  | n :: rest, nid, f => if n.id = nid then f n :: rest else n :: updateFirst rest nid f

/-- The mutation `mark_read` performs on the fetched row
(notification_repository.py:45-47): `if notification.read_at is None:
notification.read_at = datetime.now(UTC)`, then unconditionally
`notification.status = "read"`. -/
def mark_read_row (n : Notification) (now : Nat) : Notification :=
  { n with read_at := if n.read_at = none then some now else n.read_at,
           status := "read" }

/-- `NotificationRepository.mark_read` (notification_repository.py:39-48):
returns `None` when the id is absent or the row is not owned by `user_id`;
otherwise mutates the row and returns it. -/
def mark_read (store : List Notification) (now : Nat) (user_id : Int) (nid : String) :
    Option Notification × List Notification :=
  match get_by_id store nid with
  | none => (none, store)
  | some n =>
    if n.recipient_id ≠ user_id then (none, store)
    else (some (mark_read_row n now), updateFirst store nid (fun m => mark_read_row m now))

/-- `NotificationRepository.mark_all_read` (notification_repository.py:50-60):
one pass over the user's rows (here: over the whole store, acting only on
rows with `recipient_id == user_id`, exactly the selected set), stamping each
unread one with the same `now` and counting the rows transitioned. -/
def mark_all_read (store : List Notification) (now : Nat) (user_id : Int) :
    Nat × List Notification :=
  match store with
  | [] => (0, [])
  | n :: rest =>
    let r := mark_all_read rest now user_id
    if n.recipient_id = user_id ∧ n.read_at = none then
      (r.1 + 1, { n with read_at := some now, status := "read" } :: r.2)
    else (r.1, n :: r.2)

/-- The mutation `update_status` performs on the fetched row
(notification_repository.py:66-68): `notification.status = status`, and
`sent_at` is stamped when the new status is `"sent"` and `sent_at` was null. -/
def update_status_row (n : Notification) (now : Nat) (status : String) : Notification :=
  { n with status := status,
           sent_at := if status = "sent" ∧ n.sent_at = none then some now else n.sent_at }

/-- `NotificationRepository.update_status` (notification_repository.py:62-69). -/
def update_status (store : List Notification) (now : Nat) (nid : String)
    (status : String) : Option Notification × List Notification :=
  match get_by_id store nid with
  | none => (none, store)
  | some n =>
    (some (update_status_row n now status),
     updateFirst store nid (fun m => update_status_row m now status))

/-- Fetch-after-update: looking up the updated id finds the updated row. -/
theorem get_by_id_updateFirst (store : List Notification) (nid : String)
    (f : Notification → Notification) (hf : ∀ m, (f m).id = m.id) :
    get_by_id (updateFirst store nid f) nid = (get_by_id store nid).map f := by
  induction store with
  | nil => rfl
  | cons n rest ih =>
    by_cases hid : n.id = nid
    · simp only [updateFirst, if_pos hid, get_by_id, hf n, hid, if_pos rfl]
      rfl
    · simp only [updateFirst, if_neg hid, get_by_id, if_neg hid, ih]

end NotificationRepository

/-- C5: mark_read is idempotent on `read_at`. If a first `mark_read` call
succeeds (the notification exists and is owned by the caller), a second call
on the resulting store succeeds too and returns the same `read_at`, which
the first call had left set; `read_at`, once set, is never changed by
`mark_read`. -/
theorem C5_mark_read_idempotent (store : List Notification) (now₁ now₂ : Nat)
    (user_id : Int) (nid : String) (n₁ : Notification) (s₁ : List Notification)
    (h : NotificationRepository.mark_read store now₁ user_id nid = (some n₁, s₁)) :
    ∃ n₂ s₂, NotificationRepository.mark_read s₁ now₂ user_id nid = (some n₂, s₂) ∧
      n₂.read_at = n₁.read_at ∧ n₁.read_at.isSome := by
  rcases hg : NotificationRepository.get_by_id store nid with _ | n
  · rw [NotificationRepository.mark_read, hg] at h
    simp at h
  · simp only [NotificationRepository.mark_read, hg] at h
    by_cases hrec : n.recipient_id = user_id
    · rw [if_neg (not_not_intro hrec)] at h
      simp only [Prod.mk.injEq, Option.some.injEq] at h
      obtain ⟨hn₁, hs₁⟩ := h
      have hidf : ∀ m, (NotificationRepository.mark_read_row m now₁).id = m.id :=
        fun m => rfl
      have hget : NotificationRepository.get_by_id s₁ nid = some n₁ := by
        rw [← hs₁, NotificationRepository.get_by_id_updateFirst store nid _ hidf, hg]
        simp [hn₁]
      have hsome : n₁.read_at.isSome := by
        rw [← hn₁]
        rcases hra : n.read_at with _ | t <;>
          simp [NotificationRepository.mark_read_row, hra]
      have hrec₁ : n₁.recipient_id = user_id := by
        rw [← hn₁]
        exact hrec
      refine ⟨NotificationRepository.mark_read_row n₁ now₂,
        NotificationRepository.updateFirst s₁ nid
          (fun m => NotificationRepository.mark_read_row m now₂), ?_, ?_, hsome⟩
      · simp only [NotificationRepository.mark_read, hget]
        rw [if_neg (not_not_intro hrec₁)]
      · rcases hra : n₁.read_at with _ | t
        · rw [hra] at hsome
          simp at hsome
        · simp [NotificationRepository.mark_read_row, hra]
    · rw [if_pos hrec] at h
      simp at h

/-- C5 witness: a store with one unread notification owned by user 1; the
first call (at time 5) is given, the second (at time 9) keeps `read_at = 5`. -/
theorem C5_witness :
    ∃ n₂ s₂, NotificationRepository.mark_read
        [{ id := "n1", recipient_id := 1, status := "read", read_at := some 5 }] 9 1 "n1"
      = (some n₂, s₂) ∧
      n₂.read_at
        = ({ id := "n1", recipient_id := 1, status := "read", read_at := some 5 }
            : Notification).read_at ∧
      ({ id := "n1", recipient_id := 1, status := "read", read_at := some 5 }
          : Notification).read_at.isSome :=
  C5_mark_read_idempotent [{ id := "n1", recipient_id := 1 }] 5 9 1 "n1"
    { id := "n1", recipient_id := 1, status := "read", read_at := some 5 }
    [{ id := "n1", recipient_id := 1, status := "read", read_at := some 5 }] rfl

/-- Position of a status in the forward chain `pending → sent → read` of the
spec's state machine (§4.4); strings outside the chain rank lowest. -/
def statusRank : String → Nat
  | "sent" => 1
  | "read" => 2
  | _ => 0

theorem statusRank_le_two (s : String) : statusRank s ≤ 2 := by
  unfold statusRank
  split <;> omega

/-- The rank relation holds pointwise between a store and itself. -/
theorem forall₂_rank_refl (store : List Notification) :
    List.Forall₂ (fun old new => statusRank old.status ≤ statusRank new.status)
      store store := by
  induction store with
  | nil => exact List.Forall₂.nil
  | cons n rest ih => exact List.Forall₂.cons (le_refl _) ih

/-- Replacing the first matching row by its mark-read mutation never lowers
any row's status rank (the new status `"read"` has the top rank). -/
theorem forall₂_rank_updateFirst_read (store : List Notification) (nid : String)
    (now : Nat) :
    List.Forall₂ (fun old new => statusRank old.status ≤ statusRank new.status)
      store (NotificationRepository.updateFirst store nid
        (fun m => NotificationRepository.mark_read_row m now)) := by
  induction store with
  | nil => exact List.Forall₂.nil
  | cons n rest ih =>
    by_cases hid : n.id = nid
    · simp only [NotificationRepository.updateFirst, if_pos hid]
      exact List.Forall₂.cons (statusRank_le_two n.status) (forall₂_rank_refl rest)
    · simp only [NotificationRepository.updateFirst, if_neg hid]
      exact List.Forall₂.cons (le_refl _) ih

/-- C7 counterexample: the claim says no store operation moves a
notification's status backward along pending → sent → read. A store holding
one already-read notification, passed to `update_status` with status
`"sent"` (the value the workers and `execute_external_sending` actually use),
comes back with that notification's status moved from `read` back to `sent`. -/
theorem C7_counterexample_status_backward :
    (NotificationRepository.update_status
        [{ id := "n1", recipient_id := 1, status := "read", sent_at := some 1,
           read_at := some 3 }] 7 "n1" "sent").2
      = [{ id := "n1", recipient_id := 1, status := "sent", sent_at := some 1,
           read_at := some 3 }] ∧
    statusRank "sent" < statusRank "read" :=
  ⟨rfl, by decide⟩

/-- C7 (amended): the read-marking store operations are monotonic — neither
`mark_read` nor `mark_all_read` ever lowers any notification's status rank —
but `update_status` writes the given status unconditionally and so can move
a status backward (see the counterexample). -/
theorem C7_mark_read_ops_monotonic (store : List Notification) (now : Nat)
    (user_id : Int) (nid : String) (user_id₂ : Int) :
    List.Forall₂ (fun old new => statusRank old.status ≤ statusRank new.status)
      store (NotificationRepository.mark_read store now user_id nid).2 ∧
    List.Forall₂ (fun old new => statusRank old.status ≤ statusRank new.status)
      store (NotificationRepository.mark_all_read store now user_id₂).2 := by
  constructor
  · rcases hg : NotificationRepository.get_by_id store nid with _ | n
    · simp only [NotificationRepository.mark_read, hg]
      exact forall₂_rank_refl store
    · simp only [NotificationRepository.mark_read, hg]
      by_cases hrec : n.recipient_id = user_id
      · rw [if_neg (not_not_intro hrec)]
        exact forall₂_rank_updateFirst_read store nid now
      · rw [if_pos hrec]
        exact forall₂_rank_refl store
  · induction store with
    | nil => exact List.Forall₂.nil
    | cons n rest ih =>
      simp only [NotificationRepository.mark_all_read]
      by_cases hcond : n.recipient_id = user_id₂ ∧ n.read_at = none
      · rw [if_pos hcond]
        exact List.Forall₂.cons (statusRank_le_two n.status) ih
      · rw [if_neg hcond]
        exact List.Forall₂.cons (le_refl _) ih

/-- C10: `mark_all_read` transitions exactly the caller's unread
notifications — each gets `read_at` set to the one shared timestamp and
status `"read"` — leaves every other row (other users' rows and already-read
rows, including their `read_at` and `status`) exactly as it was, and returns
exactly the number of rows transitioned. -/
theorem C10_mark_all_read_frame (store : List Notification) (now : Nat)
    (user_id : Int) :
    (NotificationRepository.mark_all_read store now user_id).1
      = (store.filter
          (fun n => decide (n.recipient_id = user_id ∧ n.read_at = none))).length ∧
    List.Forall₂ (fun old new =>
        (old.recipient_id = user_id ∧ old.read_at = none →
          new = { old with read_at := some now, status := "read" }) ∧
        (¬(old.recipient_id = user_id ∧ old.read_at = none) → new = old))
      store (NotificationRepository.mark_all_read store now user_id).2 := by
  induction store with
  | nil => exact ⟨rfl, List.Forall₂.nil⟩
  | cons n rest ih =>
    obtain ⟨ih₁, ih₂⟩ := ih
    by_cases hcond : n.recipient_id = user_id ∧ n.read_at = none
    · constructor
      · simp only [NotificationRepository.mark_all_read, if_pos hcond,
          List.filter_cons, decide_eq_true hcond, if_pos]
        simp [ih₁]
      · simp only [NotificationRepository.mark_all_read, if_pos hcond]
        exact List.Forall₂.cons ⟨fun _ => rfl, fun hc => absurd hcond hc⟩ ih₂
    · constructor
      · simp only [NotificationRepository.mark_all_read, if_neg hcond,
          List.filter_cons]
        have hdec : decide (n.recipient_id = user_id ∧ n.read_at = none) = false := by
          simpa using hcond
        simp [hdec, ih₁]
      · simp only [NotificationRepository.mark_all_read, if_neg hcond]
        exact List.Forall₂.cons ⟨fun hc => absurd hc hcond, fun _ => rfl⟩ ih₂
